import Mathlib

/-!
Shallow embedding of `src/src/libp2p/discv5.ts`: the `Discv5Discovery`
libp2p peer-discovery adapter. The embedding covers record ingestion
(`addEnr`, `handleEnr`), the start/stop lifecycle state machine, the
boot-record processing in the constructor, and the post-lookup
run-flag re-check of the `findPeers` polling loop.
-/

namespace Discv5Discovery

/-- Network addresses (multiaddrs) are opaque values to this adapter;
we model them as natural numbers. -/
abbrev Multiaddr := Nat

/-- Modelled from the spec: a decoded ENR record (the `ENR` class is not
under `src/`) exposes, per transport kind (datagram/UDP, stream/TCP) and
per address family, an optional endpoint, together with an identity key
from which the peer identity is derived. -/
structure ENRRecord where
  udp : Option Multiaddr
  udp6 : Option Multiaddr
  tcp : Option Multiaddr
  tcp6 : Option Multiaddr
  ident : Nat
deriving DecidableEq

/-- Modelled from the spec: `decodedEnr.peerId()` derives the peer
identity from the record's identity key and always succeeds for a
validly-decoded record. -/
def peerIdOf (r : ENRRecord) : Nat := r.ident

inductive Transport
  | udp
  | tcp
deriving DecidableEq

/-- Modelled from the spec: `getLocationMultiaddr(kind)` (`ENR` class,
not under `src/`) returns the record's endpoint of the given transport
kind over either address family, when one is present. -/
def getLocationMultiaddr (t : Transport) (r : ENRRecord) : Option Multiaddr :=
  match t with
  | .udp => match r.udp with
    | some a => some a
    | none => r.udp6
  | .tcp => match r.tcp with
    | some a => some a
    | none => r.tcp6

/-- An `ENRInput` is either an already-decoded record object or an
encoded text form. The text codec is out of scope (modelled from the
spec), so a text input is characterized exactly by its decode result:
`none` means `ENR.decodeTxt` throws on it. -/
inductive ENRInput
  | record (r : ENRRecord)
  | txt (decoded : Option ENRRecord)
deriving DecidableEq

/-- `typeof enr === "string" ? ENR.decodeTxt(enr) : enr`: resolve an
input to a decoded record; `none` means the decoder threw. -/
def decodeInput : ENRInput → Option ENRRecord
  | .record r => some r
  | .txt d => d

inductive IngestError
  | decodeError
  | invalidInput
deriving DecidableEq

instance {ε α : Type} [DecidableEq ε] [DecidableEq α] : DecidableEq (Except ε α) := by
  intro a b
  cases a <;> cases b
  case error.error e f =>
    exact if h : e = f then .isTrue (by rw [h]) else .isFalse (by intro hc; cases hc; exact h rfl)
  case error.ok e x => exact .isFalse (by intro hc; cases hc)
  case ok.error x e => exact .isFalse (by intro hc; cases hc)
  case ok.ok x y =>
    exact if h : x = y then .isTrue (by rw [h]) else .isFalse (by intro hc; cases hc; exact h rfl)

/-- `addEnr`, the strict ingestion path: decode (a malformed text input
throws, `.error .decodeError`), throw `.error .invalidInput` when the
`udp` field is undefined on both address families, and otherwise
forward the decoded record to the engine store
(`this.discv5.addEnr(decodedEnr)`). `.ok r` means exactly `r` was
forwarded; an error means the store was never called. -/
def addEnr (i : ENRInput) : Except IngestError ENRRecord :=
  match decodeInput i with
  | none => .error .decodeError
  | some r =>
    if r.udp = none ∧ r.udp6 = none then .error .invalidInput
    else .ok r

/-- The payload of a `"peer"` event: a peer identity and an ordered
address list. -/
structure PeerEvent where
  id : Nat
  multiaddrs : List Multiaddr
deriving DecidableEq

/-- `handleEnr`, the lazy ingestion path: decode, return silently when
`getLocationMultiaddr("tcp")` yields nothing, and otherwise emit one
`"peer"` event whose address list has the TCP endpoint first with the
UDP endpoint appended when present. `.ok none` means no event was
emitted; `.ok (some ev)` means exactly the event `ev` was emitted. -/
def handleEnr (i : ENRInput) : Except IngestError (Option PeerEvent) :=
  match decodeInput i with
  | none => .error .decodeError
  | some r =>
    match getLocationMultiaddr .tcp r with
    | none => .ok none
    | some multiaddrTCP =>
      .ok (some { id := peerIdOf r,
                  multiaddrs :=
                    match getLocationMultiaddr .udp r with
                    | some multiaddrUDP => [multiaddrTCP, multiaddrUDP]
                    | none => [multiaddrTCP] })

/-- Observable controller state: the `started` run-flag plus counters of
the calls this adapter makes to the underlying engine and to the event
wiring (`discv5.start`, `discv5.stop`, `on`/`off` for `"discovered"`,
and the `setTimeout` scheduling of `findPeers`). -/
structure ControllerState where
  started : Bool
  engineStartCount : Nat
  engineStopCount : Nat
  subscribeCount : Nat
  unsubscribeCount : Nat
  loopScheduleCount : Nat
deriving DecidableEq

/-- The controller state the constructor establishes: `this.started =
false`, no engine lifecycle call and no subscription made yet. -/
def initState : ControllerState :=
  { started := false, engineStartCount := 0, engineStopCount := 0,
    subscribeCount := 0, unsubscribeCount := 0, loopScheduleCount := 0 }

/-- `start()`: return at once when already started; otherwise set the
run-flag, invoke the engine's `start` (which may reject —
`engineStartFails`), and only after it resolves subscribe the
`"discovered"` handler and schedule `findPeers`. The boolean in the
result is `true` when the engine rejection propagated to the caller;
note the run-flag is set before the engine call and is not rolled back
on failure. -/
def startOp (engineStartFails : Bool) (s : ControllerState) : ControllerState × Bool :=
  if s.started then (s, false)
  else
    let s1 := { s with started := true, engineStartCount := s.engineStartCount + 1 }
    if engineStartFails then (s1, true)
    else ({ s1 with subscribeCount := s1.subscribeCount + 1,
                    loopScheduleCount := s1.loopScheduleCount + 1 }, false)

/-- `stop()`: return at once when not started; otherwise clear the
run-flag first, unsubscribe the `"discovered"` handler and stop the
underlying engine. -/
def stopOp (s : ControllerState) : ControllerState :=
  if s.started then
    { s with started := false,
             unsubscribeCount := s.unsubscribeCount + 1,
             engineStopCount := s.engineStopCount + 1 }
  else s

/-- One `findPeers` iteration at the point where the awaited `findNode`
lookup has returned: the loop re-checks `this.started`; when the flag
is cleared it returns and the results are discarded, otherwise each
returned record goes through `handleEnr` and the emitted `"peer"`
events are collected in order. -/
def findPeersAfterLookup (startedFlag : Bool) (enrs : List ENRRecord) : List PeerEvent :=
  if startedFlag then
    enrs.filterMap (fun r =>
      match handleEnr (.record r) with
      | .ok (some ev) => some ev
      | _ => none)
  else []

/-- One ingestion call made by the constructor on a boot record. -/
inductive BootAction
  | add (e : ENRInput)
  | handle (e : ENRInput)
deriving DecidableEq

/-- The ingestion-call trace of `options.bootEnrs.forEach`: for each
boot record, in order, the strict `addEnr` and then the lazy
`handleEnr`. -/
def bootTrace : List ENRInput → List BootAction
  | [] => []
  | e :: rest => .add e :: .handle e :: bootTrace rest

/-- `options.bootEnrs.forEach((bootEnr) => { this.addEnr(bootEnr);
this.handleEnr(bootEnr); })`: processes the boot set in order; a throw
from `addEnr` aborts construction. -/
def processBoots : List ENRInput → Except IngestError (List BootAction)
  | [] => .ok []
  | e :: rest =>
    match addEnr e with
    | .error err => .error err
    | .ok _ =>
      match processBoots rest with
      | .error err => .error err
      | .ok tail => .ok (.add e :: .handle e :: tail)

/-- The constructor: sets `this.started = false` and then ingests the
boot set — all before `start()` can ever run. On success it yields the
trace of ingestion calls and the resulting controller state. -/
def constructorRun (boots : List ENRInput) : Except IngestError (List BootAction × ControllerState) :=
  match processBoots boots with
  | .error err => .error err
  | .ok t => .ok (t, initState)

/-- `const defaultLookupInterval = 5 * 1000`. -/
def defaultLookupInterval : Nat := 5 * 1000

/-- `this.lookupInterval = options.lookupInterval ||
defaultLookupInterval`: JavaScript `||` takes the right operand when
the left one is absent or falsy (the number 0). -/
def effectiveLookupInterval (o : Option Nat) : Nat :=
  match o with
  | none => defaultLookupInterval
  | some v => if v = 0 then defaultLookupInterval else v

/-- Claim C1 counterexample: the record exposing only a UDP endpoint
(at address 1, no TCP endpoint on either family) produces no `"peer"`
event at all — `handleEnr` returns without emitting — refuting the
claim that exactly one event with a length-1 address list is emitted. -/
theorem claim1_counterexample :
    getLocationMultiaddr .udp ⟨some 1, none, none, none, 0⟩ = some 1 ∧
    getLocationMultiaddr .tcp ⟨some 1, none, none, none, 0⟩ = none ∧
    handleEnr (.record ⟨some 1, none, none, none, 0⟩) = .ok none ∧
    handleEnr (.record ⟨some 1, none, none, none, 0⟩) ≠
      .ok (some { id := 0, multiaddrs := [1] }) := by
  refine ⟨rfl, rfl, rfl, by decide⟩

/-- Claim C1 (amended): lazy ingestion gates on the stream-transport
(TCP) endpoint, not the datagram one: for every validly-decoded record
exposing a TCP endpoint on some address family but no UDP endpoint,
`handleEnr` emits exactly one `"peer"` event whose address list has
length 1 and equals that TCP endpoint (a record with only a UDP
endpoint emits nothing, see `claim3`). -/
theorem claim1_tcp_only_single_event (i : ENRInput) (r : ENRRecord) (a : Multiaddr)
    (hdec : decodeInput i = some r)
    (htcp : getLocationMultiaddr .tcp r = some a)
    (hudp : getLocationMultiaddr .udp r = none) :
    handleEnr i = .ok (some { id := peerIdOf r, multiaddrs := [a] }) := by
  simp [handleEnr, hdec, htcp, hudp]

/-- Claim C1 witness: applying the amended claim to a concrete record
with a TCP endpoint at 5 and no UDP endpoint. -/
theorem claim1_witness :
    handleEnr (.record ⟨none, none, some 5, none, 7⟩) =
      .ok (some { id := 7, multiaddrs := [5] }) :=
  claim1_tcp_only_single_event (.record ⟨none, none, some 5, none, 7⟩)
    ⟨none, none, some 5, none, 7⟩ 5 rfl rfl rfl

/-- Claim C2 counterexample: for the record with UDP endpoint 2 and TCP
endpoint 3, the emitted address list is `[3, 2]` — the TCP (stream)
endpoint first — refuting "datagram (UDP) endpoint listed first". -/
theorem claim2_counterexample :
    getLocationMultiaddr .udp ⟨some 2, none, some 3, none, 4⟩ = some 2 ∧
    getLocationMultiaddr .tcp ⟨some 2, none, some 3, none, 4⟩ = some 3 ∧
    handleEnr (.record ⟨some 2, none, some 3, none, 4⟩) =
      .ok (some { id := 4, multiaddrs := [3, 2] }) ∧
    (2 : Multiaddr) ≠ 3 := by
  refine ⟨rfl, rfl, rfl, by decide⟩

/-- Claim C2 (amended): for every validly-decoded record exposing both
a UDP and a TCP endpoint, `handleEnr` emits exactly one `"peer"` event
whose address list has exactly 2 elements with the stream-transport
(TCP) endpoint listed first and the UDP endpoint second. -/
theorem claim2_both_endpoints_tcp_first (i : ENRInput) (r : ENRRecord) (u t : Multiaddr)
    (hdec : decodeInput i = some r)
    (hudp : getLocationMultiaddr .udp r = some u)
    (htcp : getLocationMultiaddr .tcp r = some t) :
    handleEnr i = .ok (some { id := peerIdOf r, multiaddrs := [t, u] }) := by
  simp [handleEnr, hdec, hudp, htcp]

/-- Claim C2 witness: applying the amended claim to a concrete text
input decoding to a record with UDP endpoint 2 and TCP endpoint 3. -/
theorem claim2_witness :
    handleEnr (.txt (some ⟨some 2, none, some 3, none, 4⟩)) =
      .ok (some { id := 4, multiaddrs := [3, 2] }) :=
  claim2_both_endpoints_tcp_first (.txt (some ⟨some 2, none, some 3, none, 4⟩))
    ⟨some 2, none, some 3, none, 4⟩ 2 3 rfl rfl rfl

/-- Claim C3 counterexample: the record whose UDP endpoint is absent on
both address families but which has a TCP endpoint at 6 does produce a
`"peer"` event, refuting "a record with no UDP endpoint on either
family yields no event". -/
theorem claim3_counterexample :
    (⟨none, none, some 6, none, 8⟩ : ENRRecord).udp = none ∧
    (⟨none, none, some 6, none, 8⟩ : ENRRecord).udp6 = none ∧
    handleEnr (.record ⟨none, none, some 6, none, 8⟩) =
      .ok (some { id := 8, multiaddrs := [6] }) := by
  refine ⟨rfl, rfl, rfl⟩

/-- Claim C3 (amended): the no-op condition is the absence of the
stream-transport (TCP) endpoint: for every validly-decoded record whose
TCP endpoint is absent on both address families, `handleEnr` emits no
`"peer"` event and raises no error; in particular a record with neither
a UDP nor a TCP endpoint produces no event and no error. -/
theorem claim3_no_tcp_no_event (i : ENRInput) (r : ENRRecord)
    (hdec : decodeInput i = some r)
    (htcp : getLocationMultiaddr .tcp r = none) :
    handleEnr i = .ok none := by
  simp [handleEnr, hdec, htcp]

/-- Claim C3 witness: applying the amended claim to the record with no
endpoint at all — no event, no error. -/
theorem claim3_witness :
    handleEnr (.record ⟨none, none, none, none, 9⟩) = .ok none :=
  claim3_no_tcp_no_event (.record ⟨none, none, none, none, 9⟩)
    ⟨none, none, none, none, 9⟩ rfl rfl

/-- Claim C4: the strict ingestion path `addEnr` throws
`invalidInput` for every decoded record whose `udp` field is undefined
on both address families and never forwards such a record to
`discv5.addEnr`; for every decoded record with at least one such field
present it forwards the record to the store without error. -/
theorem claim4_addEnr_strict (i : ENRInput) (r : ENRRecord)
    (hdec : decodeInput i = some r) :
    (r.udp = none ∧ r.udp6 = none → addEnr i = .error .invalidInput) ∧
    (¬ (r.udp = none ∧ r.udp6 = none) → addEnr i = .ok r) := by
  constructor <;> intro h <;> simp [addEnr, hdec, h]

/-- Claim C4 witness: the endpoint-less record is rejected (and never
forwarded), while a udp6-only text record is forwarded unchanged. -/
theorem claim4_witness :
    addEnr (.record ⟨none, none, none, none, 9⟩) = .error .invalidInput ∧
    addEnr (.txt (some ⟨none, some 11, none, none, 3⟩)) = .ok ⟨none, some 11, none, none, 3⟩ :=
  ⟨(claim4_addEnr_strict (.record ⟨none, none, none, none, 9⟩)
      ⟨none, none, none, none, 9⟩ rfl).1 (by decide),
   (claim4_addEnr_strict (.txt (some ⟨none, some 11, none, none, 3⟩))
      ⟨none, some 11, none, none, 3⟩ rfl).2 (by decide)⟩

/-- Claim C5: after `stop()` the run-flag is `false` (whatever state it
ran from), and the `findPeers` re-check performed right after the
in-flight `findNode` lookup returns then discards the results: no
`"peer"` event is emitted from the lookup path. -/
theorem claim5_no_events_after_stop (s : ControllerState) (enrs : List ENRRecord) :
    (stopOp s).started = false ∧
    findPeersAfterLookup (stopOp s).started enrs = [] := by
  have h : (stopOp s).started = false := by
    unfold stopOp
    by_cases hs : s.started <;> simp [hs]
  exact ⟨h, by rw [h]; simp [findPeersAfterLookup]⟩

/-- Claim C6: `start()` is idempotent: from a stopped state, a second
`start()` without an intervening `stop()` returns at once as a no-op,
so the engine's `start` is invoked exactly once and the `"discovered"`
handler is subscribed exactly once. -/
theorem claim6_start_idempotent (s : ControllerState) (h : s.started = false) :
    (startOp false ((startOp false s).1)).1 = (startOp false s).1 ∧
    ((startOp false s).1).engineStartCount = s.engineStartCount + 1 ∧
    ((startOp false s).1).subscribeCount = s.subscribeCount + 1 := by
  simp [startOp, h]

/-- Claim C6 witness: two consecutive `start()` calls from the
constructor's state leave the counts at one. -/
theorem claim6_witness :
    (startOp false ((startOp false initState).1)).1 = (startOp false initState).1 ∧
    ((startOp false initState).1).engineStartCount = initState.engineStartCount + 1 ∧
    ((startOp false initState).1).subscribeCount = initState.subscribeCount + 1 :=
  claim6_start_idempotent initState rfl

/-- Claim C7: `stop()` on a stopped controller (in particular before
any `start()`) is a full no-op: the state is returned unchanged, so the
run-flag is untouched, the engine's `stop` is never invoked and no
handler is unsubscribed. -/
theorem claim7_stop_noop (s : ControllerState) (h : s.started = false) :
    stopOp s = s := by
  simp [stopOp, h]

/-- Claim C7 witness: `stop()` right after construction changes
nothing. -/
theorem claim7_witness : stopOp initState = initState :=
  claim7_stop_noop initState rfl

/-- Claim C8: on a boot set every record of which passes the strict
validation, the constructor runs, for each boot record in order, first
`addEnr` and then `handleEnr` (the trace `bootTrace boots`), and the
controller it builds is still in its initial stopped state: the
run-flag is `false` and the engine has never been started. -/
theorem claim8_constructor_boot_order (boots : List ENRInput)
    (h : ∀ e ∈ boots, ∃ r, addEnr e = .ok r) :
    constructorRun boots = .ok (bootTrace boots, initState) ∧
    initState.started = false ∧ initState.engineStartCount = 0 := by
  refine ⟨?_, rfl, rfl⟩
  have hboots : processBoots boots = .ok (bootTrace boots) := by
    induction boots with
    | nil => rfl
    | cons e rest ih =>
      obtain ⟨r, hadd⟩ := h e (List.mem_cons_self e rest)
      have htail : processBoots rest = .ok (bootTrace rest) :=
        ih (fun x hx => h x (List.mem_cons_of_mem e hx))
      simp [processBoots, hadd, htail, bootTrace]
  simp [constructorRun, hboots]

/-- Claim C8 witness: a concrete two-record boot set yields the
interleaved add/handle trace and a stopped controller. -/
theorem claim8_witness :
    constructorRun [.record ⟨some 1, none, none, none, 0⟩,
                    .txt (some ⟨none, some 2, some 3, none, 1⟩)] =
      .ok (bootTrace [.record ⟨some 1, none, none, none, 0⟩,
                      .txt (some ⟨none, some 2, some 3, none, 1⟩)], initState) ∧
    initState.started = false ∧ initState.engineStartCount = 0 :=
  claim8_constructor_boot_order
    [.record ⟨some 1, none, none, none, 0⟩, .txt (some ⟨none, some 2, some 3, none, 1⟩)]
    (by
      intro e he
      simp only [List.mem_cons, List.not_mem_nil, or_false] at he
      rcases he with h1 | h2
      · exact ⟨⟨some 1, none, none, none, 0⟩, by rw [h1]; decide⟩
      · exact ⟨⟨none, some 2, some 3, none, 1⟩, by rw [h2]; decide⟩)

/-- Claim C9: when the engine's `start()` rejects, the failure
propagates to the caller and the run-flag — set before the engine call —
is not rolled back: the resulting state is started with no handler
subscribed and no loop scheduled, a subsequent `start()` is a no-op,
and a subsequent `stop()` does invoke the engine's `stop` and clears
the flag. -/
theorem claim9_failed_start_state (s : ControllerState) (h : s.started = false) :
    (startOp true s).2 = true ∧
    ((startOp true s).1).started = true ∧
    ((startOp true s).1).engineStartCount = s.engineStartCount + 1 ∧
    ((startOp true s).1).subscribeCount = s.subscribeCount ∧
    ((startOp true s).1).loopScheduleCount = s.loopScheduleCount ∧
    startOp false ((startOp true s).1) = ((startOp true s).1, false) ∧
    (stopOp ((startOp true s).1)).engineStopCount = s.engineStopCount + 1 ∧
    (stopOp ((startOp true s).1)).started = false := by
  simp [startOp, stopOp, h]

/-- Claim C9 witness: a failed `start()` from the constructor's
state. -/
theorem claim9_witness :
    (startOp true initState).2 = true ∧
    ((startOp true initState).1).started = true ∧
    ((startOp true initState).1).engineStartCount = initState.engineStartCount + 1 ∧
    ((startOp true initState).1).subscribeCount = initState.subscribeCount ∧
    ((startOp true initState).1).loopScheduleCount = initState.loopScheduleCount ∧
    startOp false ((startOp true initState).1) = ((startOp true initState).1, false) ∧
    (stopOp ((startOp true initState).1)).engineStopCount = initState.engineStopCount + 1 ∧
    (stopOp ((startOp true initState).1)).started = false :=
  claim9_failed_start_state initState rfl

/-- Claim C10: the polling cadence falls back to the 5000 ms default
when the `lookupInterval` option is absent or supplied as the falsy
value 0, and equals the supplied value exactly when that value is
truthy (non-zero). -/
theorem claim10_lookup_interval :
    defaultLookupInterval = 5000 ∧
    effectiveLookupInterval none = defaultLookupInterval ∧
    effectiveLookupInterval (some 0) = defaultLookupInterval ∧
    ∀ v : Nat, v ≠ 0 → effectiveLookupInterval (some v) = v := by
  refine ⟨rfl, rfl, rfl, fun v hv => ?_⟩
  simp [effectiveLookupInterval, hv]

/-- Claim C10 witness: a truthy interval of 7 ms is used as given. -/
theorem claim10_witness : effectiveLookupInterval (some 7) = 7 :=
  claim10_lookup_interval.2.2.2 7 (by decide)

end Discv5Discovery
